import Mathlib

set_option autoImplicit false

/-
Shallow embedding of the Pelican federation control plane, translated from the
repository sources:

  * src/utils/test_file_transfers_utils.go  (self-test upload/download/delete)
  * src/registry/registry.go                (key-sign challenge, jwks serving,
                                             namespace status and deletion)
  * src/director/director_api.go            (ListNamespaces)
  * src/config/config.go                    (ServerType bitmask, InitServer)

External effects (HTTP responses, ECDSA signatures, the SQLite-backed
namespace table, the viper configuration store) are made explicit: responses
and verification outcomes are inputs, the namespace table is a list of
records threaded through each handler, and the handler result is the pair of
the HTTP status code it writes and the table it leaves behind.
-/

/-! ## Self-test file transfers (src/utils/test_file_transfers_utils.go) -/

/-- Constant body for the origin self-test (`selfTestBody` in the source). -/
def selfTestBody : String :=
  "This object was created by the Pelican self-test functionality"

/-- Constant body for the director test (`directorTestBody` in the source). -/
def directorTestBody : String :=
  "This object was created by the Pelican director-test functionality"

/-- HTTP methods issued by the test-file-transfer suite. -/
inductive HttpMethod where
  | put
  | get
  | delete
  deriving DecidableEq

/-- An HTTP request issued by the suite: method, URL path and request body. -/
structure HttpRequest where
  method : HttpMethod
  path : String
  body : String
  deriving DecidableEq

/-- An HTTP response as observed by the suite: status code and response body. -/
structure HttpResponse where
  statusCode : Nat
  body : String
  deriving DecidableEq

/--
Environment of one `RunTests` execution.  `tokenOk` is the outcome of
`generateFileTestScitoken` (false when the issuer URL is empty or token
creation fails), `baseUrlOk` the outcome of `url.Parse(baseUrl)`, `now` the
`time.Now().Format(time.RFC3339)` string, and the three responses are what
the XRootD server answers to the PUT, GET and DELETE requests.
-/
structure TftEnv where
  tokenOk : Bool
  baseUrlOk : Bool
  now : String
  putResp : HttpResponse
  getResp : HttpResponse
  delResp : HttpResponse
  deriving DecidableEq

/--
`uploadTestfile` from the source: mint a token, parse the base URL, PUT
`testBody` to `/pelican/monitoring/<testType>-<RFC3339>.txt`, and fail when
the response status exceeds 299.  Returns the upload URL (its path) on
success, paired with the list of HTTP requests actually issued.
-/
def uploadTestfile (env : TftEnv) (testType : String) (testBody : String) :
    Except String String × List HttpRequest :=
  if env.tokenOk = false then
    (Except.error "Failed to create a token for test file transfer", [])
  else if env.baseUrlOk = false then
    (Except.error "The baseUrl is not parseable as a URL", [])
  else
    let uploadPath := "/pelican/monitoring/" ++ testType ++ "-" ++ env.now ++ ".txt"
    let req : HttpRequest := ⟨HttpMethod.put, uploadPath, testBody⟩
    if env.putResp.statusCode > 299 then
      (Except.error "Error response from test file upload", [req])
    else
      (Except.ok uploadPath, [req])

/--
`downloadTestfile` from the source: mint a token, GET `downloadUrl`, fail
when the body differs from `testBody` (checked first, as in the source) or
when the status exceeds 299.
-/
def downloadTestfile (env : TftEnv) (testBody : String) (downloadUrl : String) :
    Except String Unit × List HttpRequest :=
  if env.tokenOk = false then
    (Except.error "Failed to create a token for test file transfer download", [])
  else
    let req : HttpRequest := ⟨HttpMethod.get, downloadUrl, ""⟩
    if env.getResp.body ≠ testBody then
      (Except.error "Contents of test file transfer body do not match upload", [req])
    else if env.getResp.statusCode > 299 then
      (Except.error "Error response from test file transfer download", [req])
    else
      (Except.ok (), [req])

/--
`deleteTestfile` from the source: mint a token, DELETE `fileUrl`, fail when
the status exceeds 299.
-/
def deleteTestfile (env : TftEnv) (fileUrl : String) :
    Except String Unit × List HttpRequest :=
  if env.tokenOk = false then
    (Except.error "Failed to create a token for the test file transfer deletion", [])
  else
    let req : HttpRequest := ⟨HttpMethod.delete, fileUrl, ""⟩
    if env.delResp.statusCode > 299 then
      (Except.error "Error response from test file transfer deletion", [req])
    else
      (Except.ok (), [req])

/--
Test body chosen by `RunTests` for a given test type: `selfTestBody` for
"self-test", `directorTestBody` for "director-test", none otherwise.
-/
def bodyForTestType (testType : String) : Option String :=
  if testType = "self-test" then some selfTestBody
  else if testType = "director-test" then some directorTestBody
  else none

/--
`TestFileTransferImpl.RunTests` from the source: choose the test body from
the test type, then upload, download and delete in order, returning at the
first failing step.  The Go function returns `(bool, error)`, modelled as
`Bool × Option String`; the second component of the result is the list of
HTTP requests issued during the run.
-/
def RunTests (env : TftEnv) (testType : String) :
    (Bool × Option String) × List HttpRequest :=
  match bodyForTestType testType with
  | none => ((false, some ("Unsupported testType: " ++ testType)), [])
  | some testBody =>
    match uploadTestfile env testType testBody with
    | (Except.error e, tr1) =>
        ((false, some ("Test file transfer failed during upload: " ++ e)), tr1)
    | (Except.ok downloadUrl, tr1) =>
      match downloadTestfile env testBody downloadUrl with
      | (Except.error e, tr2) =>
          ((false, some ("Test file transfer failed during download: " ++ e)), tr1 ++ tr2)
      | (Except.ok _, tr2) =>
        match deleteTestfile env downloadUrl with
        | (Except.error e, tr3) =>
            ((false, some ("Test file transfer failed during delete: " ++ e)), tr1 ++ tr2 ++ tr3)
        | (Except.ok _, tr3) =>
            ((true, none), tr1 ++ tr2 ++ tr3)

/-- True when the trace contains a DELETE request: the delete step was attempted. -/
def deleteAttempted (tr : List HttpRequest) : Bool :=
  tr.any (fun r => r.method == HttpMethod.delete)

/-! ## Registry data model (src/registry/registry.go and its database layer) -/

/--
Modelled from the spec: the registry database layer (`registry_db.go`) is not
in `src/`; per the spec an approval status is one of Pending, Approved,
Denied; `unknown` stands for the Go zero value of the status field (legacy
rows without admin metadata).
-/
inductive RegStatus where
  | pending
  | approved
  | denied
  | unknown
  deriving DecidableEq

/--
Modelled from the spec: admin metadata of a namespace (`AdminMetadata` is
defined in the registry database layer, absent from `src/`).  Only the
fields the handlers in `src/registry/registry.go` consult are kept; the Go
zero value (used in the `ns.AdminMetadata != emptyMetadata` comparison) is
the record with `unknown` status and empty description.
-/
structure AdminMetadata where
  status : RegStatus := RegStatus.unknown
  description : String := ""
  deriving DecidableEq

/--
Modelled from the spec: a registered namespace (the `Namespace` record of
the registry database layer, absent from `src/`): a path, the registered
public key set (kept as one canonical JSON string, matching the spec's
comparison of keys by canonical JSON equality), an optional identity and
optional admin metadata (`none` models a nil `*AdminMetadata`).
-/
structure Namespace where
  path : String
  pubkey : String
  identity : String := ""
  adminMetadata : Option AdminMetadata := none
  deriving DecidableEq

/-- The registry table: unique by path.  Handlers thread it explicitly. -/
abbrev RegState := List Namespace

/-- Registry toggles read through `param` in the source. -/
structure RegConfig where
  requireCacheApproval : Bool
  requireOriginApproval : Bool
  requireKeyChaining : Bool
  deriving DecidableEq

/-- Go's `strings.HasPrefix` over the characters of the two strings. -/
def strStartsWith (s pre : String) : Bool :=
  List.isPrefixOf pre.data s.data

/-- Modelled from the spec: `namespaceExists` of the database layer. -/
def namespaceExists (st : RegState) (p : String) : Bool :=
  st.any (fun ns => ns.path == p)

/-- Modelled from the spec: `getNamespaceByPrefix` of the database layer. -/
def getNamespace (st : RegState) (p : String) : Option Namespace :=
  st.find? (fun ns => ns.path == p)

/--
Modelled from the spec: `getNamespaceJwksByPrefix` of the database layer,
returning the stored key set together with the (possibly nil) admin
metadata.
-/
def getNamespaceJwks (st : RegState) (p : String) :
    Option (String × Option AdminMetadata) :=
  (getNamespace st p).map (fun ns => (ns.pubkey, ns.adminMetadata))

/-- Modelled from the spec: `deleteNamespace` of the database layer. -/
def deleteNamespace (st : RegState) (p : String) : RegState :=
  st.filter (fun ns => !(ns.path == p))

/--
The `registrationData` JSON body of `POST /api/v1.0/registry`
(src/registry/registry.go).  `pubkey` stands for the submitted JWKS in its
canonical JSON form; `reqPath` is the `prefix` field.
-/
structure RegistrationData where
  clientNonce : String := ""
  clientPayload : String := ""
  clientSignature : String := ""
  serverNonce : String := ""
  serverPayload : String := ""
  serverSignature : String := ""
  pubkey : String := ""
  identity : String := ""
  reqPath : String := ""
  deriving DecidableEq

/-! ### Key-sign challenge: init (src/registry/registry.go, keySignChallengeInit) -/

/-- One hexadecimal digit, lower case, as produced by Go's `encoding/hex`. -/
def hexDigit (n : Nat) : Char :=
  if n < 10 then Char.ofNat (48 + n) else Char.ofNat (87 + n)

/--
Go's `hex.EncodeToString` over the bytes of a string.  The model strings are
ASCII, where each byte is the code point, so the encoding maps each
character to its two hex digits.
-/
def hexEncode (s : String) : String :=
  ⟨s.data.foldr (fun c acc => hexDigit (c.toNat / 16 % 16) :: hexDigit (c.toNat % 16) :: acc) []⟩

/--
`signPayload` (ECDSA over SHA-256 in the source) modelled symbolically: the
signature is a tag applied to the exact payload bytes, so two signatures
agree exactly when the signed payloads agree.
-/
def signPayload (payload : String) : String :=
  "ecdsa-sha256-sig:" ++ payload

/--
Environment of `keySignChallengeInit`: `freshNonce` is the value produced by
`generateNonce()` (hex encoding of 32 random bytes), `nonceOk` whether
`rand.Read` succeeded, `keyOk` whether `loadServerKeys` succeeded.
-/
structure InitEnv where
  freshNonce : String
  nonceOk : Bool := true
  keyOk : Bool := true
  deriving DecidableEq

/-- The JSON object written by a successful `keySignChallengeInit`. -/
structure InitResponse where
  status : Nat
  serverNonce : String
  clientNonce : String
  serverPayload : String
  serverSignature : String
  deriving DecidableEq

/--
`keySignChallengeInit` from the source: generate a fresh server nonce, form
`serverPayload := []byte(data.ClientNonce + data.ServerNonce)` — note the
source reads the request field `data.ServerNonce`, not the freshly
generated nonce — sign it, and answer 200 with the fresh nonce, the client
nonce, and the hex encodings of the payload and signature.  Failures write
status 500 in the source; they are returned as errors here.
-/
def keySignChallengeInit (env : InitEnv) (data : RegistrationData) :
    Except String InitResponse :=
  if env.nonceOk = false then
    Except.error "Failed to generate nonce for key-sign challenge"
  else
    let serverNonce := env.freshNonce
    let serverPayload := data.clientNonce ++ data.serverNonce
    if env.keyOk = false then
      Except.error "Failed to load the server private key"
    else
      Except.ok
        { status := 200
          serverNonce := serverNonce
          clientNonce := data.clientNonce
          serverPayload := hexEncode serverPayload
          serverSignature := hexEncode (signPayload serverPayload) }

/-! ### Key-sign challenge: commit (src/registry/registry.go, keySignChallengeCommit) -/

/--
Environment of `keySignChallengeCommit`: outcomes of the external crypto and
decoding steps.  `jwksOk` is `validateJwks`/`key.Raw` succeeding, `decodeOk`
covers the three `hex.DecodeString` calls, `keyLoadOk` is `loadServerKeys`,
and `clientVerified`/`serverVerified` are the two `verifySignature` results.
-/
structure CommitEnv where
  jwksOk : Bool := true
  decodeOk : Bool := true
  keyLoadOk : Bool := true
  clientVerified : Bool
  serverVerified : Bool
  deriving DecidableEq

/--
Modelled from the spec: `validatePrefix` (registry database layer, absent
from `src/`) — the requested path must be non-empty, start with a slash and
contain no double-dot component.
-/
def validatePath (p : String) : Bool :=
  p ≠ "" && strStartsWith p "/" && !((p.splitOn "/").contains "..")

/--
Modelled from the spec: `validateKeyChaining` (absent from `src/`) — when
key chaining is required, every registered ancestor of the requested path
must share its key with the incoming one.  Returns true when the request is
permitted.
-/
def validateKeyChaining (requireKeyChaining : Bool) (st : RegState)
    (reqPath : String) (key : String) : Bool :=
  !requireKeyChaining ||
    st.all (fun ns => !(strStartsWith reqPath (ns.path ++ "/")) || ns.pubkey == key)

/--
Modelled from the spec: `addNamespace` via `addNamespaceHandler` — insert
the namespace with the submitted key and identity, status overwritten to
Pending.
-/
def addNamespace (st : RegState) (data : RegistrationData) : RegState :=
  st ++ [{ path := data.reqPath
           pubkey := data.pubkey
           identity := data.identity
           adminMetadata := some { status := RegStatus.pending } }]

/--
`keySignChallengeCommit` from the source, for the "register" action.  The
result is the HTTP status the client observes together with the resulting
table.  Error paths in which the source returns an error without writing a
status are reported as 500 because the caller `cliRegisterNamespace` then
writes 500.  The key facts mirrored from the source: when both signatures
verify and the requested path already exists, the handler answers 200 and
returns without comparing the submitted key to the stored one and without
touching the table; a fresh path is validated, checked for key chaining
(403 on violation) and inserted with status Pending (201).
-/
def keySignChallengeCommit (cfg : RegConfig) (env : CommitEnv) (st : RegState)
    (data : RegistrationData) (action : String) : Nat × RegState :=
  if env.jwksOk = false then (500, st)
  else if env.decodeOk = false then (500, st)
  else if env.keyLoadOk = false then (500, st)
  else if env.clientVerified && env.serverVerified then
    if action = "register" then
      if namespaceExists st data.reqPath then (200, st)
      else if validatePath data.reqPath = false then (500, st)
      else if validateKeyChaining cfg.requireKeyChaining st data.reqPath data.pubkey = false then
        (403, st)
      else (201, addNamespace st data)
    else (200, st)
  else (500, st)

/--
`keySignChallenge` from the source: dispatch on the request body.  All six
challenge fields non-empty commits the challenge; otherwise a non-empty
`client_nonce` starts it; otherwise the handler writes
`http.StatusMultipleChoices` (300) with a MISSING PARAMETERS error.
-/
def keySignChallenge (cfg : RegConfig) (cenv : CommitEnv) (ienv : InitEnv)
    (st : RegState) (data : RegistrationData) (action : String) : Nat × RegState :=
  if data.clientNonce ≠ "" && data.clientPayload ≠ "" && data.clientSignature ≠ "" &&
      data.serverNonce ≠ "" && data.serverPayload ≠ "" && data.serverSignature ≠ "" then
    keySignChallengeCommit cfg cenv st data action
  else if data.clientNonce ≠ "" then
    match keySignChallengeInit ienv data with
    | Except.ok r => (r.status, st)
    | Except.error _ => (500, st)
  else
    (300, st)

/-! ### Serving the namespace JWKS (src/registry/registry.go, wildcardHandler) -/

/--
The `.well-known/issuer.jwks` branch of `wildcardHandler` from the source:
404 when the path is not registered; when admin metadata is present and the
status is not Approved, 403 if the matching approval toggle is on
(`Registry.RequireCacheApproval` for paths starting with "/caches/",
`Registry.RequireOriginApproval` otherwise); otherwise 200 with the stored
key set.
-/
def wildcardHandlerJwks (cfg : RegConfig) (st : RegState) (p : String) :
    Nat × Option String :=
  if namespaceExists st p = false then (404, none)
  else
    match getNamespaceJwks st p with
    | none => (500, none)
    | some (jwks, adminMetadata) =>
      match adminMetadata with
      | some md =>
        if md.status ≠ RegStatus.approved then
          if strStartsWith p "/caches/" then
            if cfg.requireCacheApproval then (403, none) else (200, some jwks)
          else
            if cfg.requireOriginApproval then (403, none) else (200, some jwks)
        else (200, some jwks)
      | none => (200, some jwks)

/--
The jwks lookup behaviour as the specification claim states it: unknown
path means 404; a registered path whose recorded status is not Approved
while the matching approval requirement is enabled means 403; anything else
means 200 with the stored JWKS.  A namespace without admin metadata has no
recorded status and so falls in the 200 case.
-/
def wildcardJwksSpec (cfg : RegConfig) (st : RegState) (p : String) :
    Nat × Option String :=
  match getNamespace st p with
  | none => (404, none)
  | some ns =>
    let toggle := if strStartsWith p "/caches/" then cfg.requireCacheApproval
                  else cfg.requireOriginApproval
    let notApproved := match ns.adminMetadata with
                       | some md => md.status != RegStatus.approved
                       | none => false
    if notApproved && toggle then (403, none) else (200, some ns.pubkey)

/-! ### Namespace status check (src/registry/registry.go, checkNamespaceStatusHandler) -/

/--
`checkNamespaceStatusHandler` from the source.  The request carries a path;
the answer is the written status code and, on 200, the `approved` field.
Empty path gives 400, a lookup miss gives 500.  With non-empty admin
metadata the source tests, in this order: paths starting with "/caches"
while `Registry.RequireCacheApproval` is on answer `status == Approved`;
otherwise, if `Registry.RequireCacheApproval` is off the answer is `true`;
otherwise `Registry.RequireOriginApproval` decides between
`status == Approved` and `true`.  Empty admin metadata (legacy schema)
answers `true`.
-/
def checkNamespaceStatusHandler (cfg : RegConfig) (st : RegState) (reqPath : String) :
    Nat × Option Bool :=
  if reqPath = "" then (400, none)
  else
    match getNamespace st reqPath with
    | none => (500, none)
    | some ns =>
      let md := ns.adminMetadata.getD {}
      if md ≠ ({} : AdminMetadata) then
        if strStartsWith reqPath "/caches" && cfg.requireCacheApproval then
          (200, some (md.status == RegStatus.approved))
        else if !cfg.requireCacheApproval then
          (200, some true)
        else if cfg.requireOriginApproval then
          (200, some (md.status == RegStatus.approved))
        else
          (200, some true)
      else
        (200, some true)

/-! ### Namespace deletion (src/registry/registry.go, deleteNamespaceHandler) -/

/--
Modelled from the spec: a parsed deletion bearer token (the jwx library is
external).  `sigKey` is the key that signed the token, `valid` the iat/exp
window check performed by `jwt.Validate`, `scopes` the space-separated
scope claim.
-/
structure DelToken where
  sigKey : String
  valid : Bool
  scopes : List String
  deriving DecidableEq

/--
`deleteNamespaceHandler` from the source.  The request carries the wildcard
path and an optional bearer token (`none` models a missing or empty
Authorization header, whose empty token string fails `jwt.Parse`).  The
result is the status code the client observes and the resulting table.
Mirrored from the source: an empty path answers 400; a missing path writes
400 (the source omits the return there, but every later failure writes its
status after the 400 and gin keeps the first one); `jwt.Parse` failures
(missing bearer or a signature not matching the stored key set) and
`jwt.Validate` failures (expired token or missing
`pelican.namespace_delete` scope) all answer 500, leaving the table
untouched; only after all checks does the handler delete and answer 200.
-/
def deleteNamespaceHandler (st : RegState) (p : String) (bearer : Option DelToken) :
    Nat × RegState :=
  if p = "" then (400, st)
  else if namespaceExists st p = false then (400, st)
  else
    match getNamespaceJwks st p with
    | none => (500, st)
    | some (jwks, _) =>
      match bearer with
      | none => (500, st)
      | some tok =>
        if tok.sigKey ≠ jwks then (500, st)
        else if tok.valid = false then (500, st)
        else if !(tok.scopes.contains "pelican.namespace_delete") then (500, st)
        else (200, deleteNamespace st p)

/--
True when the deletion request fails authorization as the source evaluates
it: no bearer token, a token signed by a key other than the stored one, an
invalid validity window, or a scope list without `pelican.namespace_delete`.
-/
def delAuthFails (st : RegState) (p : String) (bearer : Option DelToken) : Bool :=
  match bearer with
  | none => true
  | some tok =>
    match getNamespaceJwks st p with
    | none => true
    | some (jwks, _) =>
      tok.sigKey != jwks || !tok.valid || !(tok.scopes.contains "pelican.namespace_delete")

/-! ## Director catalog listing (src/director/director_api.go) -/

/-- Server roles of director advertisements (`ServerType` in the director package). -/
inductive ServerAdType where
  | origin
  | cache
  deriving DecidableEq

/--
Modelled from the spec: a namespace advertisement (`NamespaceAd` is defined
elsewhere in the director package); only identity matters for the catalog
listing, so the record keeps the advertised path.
-/
structure NamespaceAd where
  adPath : String := ""
  deriving DecidableEq

instance : Inhabited NamespaceAd := ⟨{}⟩

/--
Modelled from the spec: a server advertisement key of the director catalog
(`ServerAd`), carrying the server identity used by `ListNamespaces`.
-/
structure ServerAd where
  name : String
  adType : ServerAdType
  deriving DecidableEq

/--
Go's `make([]NamespaceAd, n, c)`: a slice of `n` zero values, provided
`n ≤ c`; otherwise the runtime panics with a makeslice length error,
modelled as `Except.error`.
-/
def goMakeSlice (n c : Nat) : Except String (List NamespaceAd) :=
  if n ≤ c then Except.ok (List.replicate n default)
  else Except.error "makeslice: len out of range"

/--
`ListNamespaces` from the source: snapshot the catalog items, allocate the
result with `make([]NamespaceAd, len(serverAdItems), 0)` — length
`len(serverAdItems)` and capacity 0, exactly as written in the source —
then append the namespace ads of every item whose key has origin type.  An
`Except.error` result models a runtime panic.
-/
def ListNamespaces (serverAdItems : List (ServerAd × List NamespaceAd)) :
    Except String (List NamespaceAd) :=
  match goMakeSlice serverAdItems.length 0 with
  | Except.error e => Except.error e
  | Except.ok namespaces =>
    Except.ok (serverAdItems.foldl
      (fun acc item => if item.1.adType = ServerAdType.origin then acc ++ item.2 else acc)
      namespaces)

/-! ## Server initialization (src/config/config.go) -/

/-- `CacheType` of the `ServerType` bitmask: `1 << 0`. -/
def CacheType : Nat := 1

/-- `OriginType` of the `ServerType` bitmask: `1 << 1`. -/
def OriginType : Nat := 2

/-- `ServerType.IsEnabled` from the source: bitwise containment. -/
def isEnabled (sType testServer : Nat) : Bool :=
  sType &&& testServer == testServer

/--
The observable configuration state touched by `InitServer`: whether the
config directory default was established, whether `setEnabledServer`
recorded the enabled bitmask (`setServerOnce`), the recorded bitmask, and
whether the block of `viper.SetDefault` server-configuration calls ran.
-/
structure ConfigState where
  configDirSet : Bool := false
  enabledSet : Bool := false
  enabledServers : Nat := 0
  serverDefaultsApplied : Bool := false
  restInitialized : Bool := false
  deriving DecidableEq

/--
`initConfigDir` from the source: establish the `ConfigDir` default;
`dirOk` is the outcome of `getConfigBase` for non-root execution.
-/
def initConfigDir (dirOk : Bool) (st : ConfigState) : Except String ConfigState :=
  if dirOk then Except.ok { st with configDirSet := true }
  else Except.error "Failed to get the config base directory"

/--
`setEnabledServer` from the source: record the bitmask once per process
(`setServerOnce.Do`).
-/
def setEnabledServer (st : ConfigState) (newServers : Nat) : ConfigState :=
  if st.enabledSet then st
  else { st with enabledSet := true, enabledServers := st.enabledServers ||| newServers }

/--
`InitServer` from the source: initialize the config directory, reject a
bitmask enabling both origin and cache, record the enabled servers, apply
the server configuration defaults, then run the remaining initialization
(file-system and viper work beyond the claim, abstracted into `restOk`).
The pair carries the Go error return alongside the final state.
-/
def InitServer (dirOk restOk : Bool) (st : ConfigState) (currentServers : Nat) :
    Except String Unit × ConfigState :=
  match initConfigDir dirOk st with
  | Except.error e =>
      (Except.error ("Failed to initialize the server configuration: " ++ e), st)
  | Except.ok st1 =>
    if isEnabled currentServers OriginType && isEnabled currentServers CacheType then
      (Except.error "A cache and origin cannot both be enabled in the same instance", st1)
    else
      let st2 := setEnabledServer st1 currentServers
      let st3 := { st2 with serverDefaultsApplied := true }
      if restOk then (Except.ok (), { st3 with restInitialized := true })
      else (Except.error "Server initialization failed", st3)

/-! ## Concrete inputs used by the theorems below -/

/-- A run whose upload succeeds (status 201) and whose download returns a corrupted body. -/
def envMismatch : TftEnv :=
  { tokenOk := true, baseUrlOk := true, now := "2024-01-01T00:00:00Z",
    putResp := ⟨201, ""⟩, getResp := ⟨200, "corrupted"⟩, delResp := ⟨204, ""⟩ }

/-- A fully successful self-test run. -/
def envHappy : TftEnv :=
  { tokenOk := true, baseUrlOk := true, now := "2024-01-02T00:00:00Z",
    putResp := ⟨200, ""⟩, getResp := ⟨200, selfTestBody⟩, delResp := ⟨200, ""⟩ }

/-- Init environment with a fixed fresh server nonce. -/
def initEnvFresh : InitEnv := { freshNonce := "bb" }

/-- An init request carrying only a client nonce. -/
def initRequest : RegistrationData := { clientNonce := "aa" }

/-- A pending namespace registered at /foo with key k1. -/
def nsFoo : Namespace :=
  { path := "/foo", pubkey := "k1",
    adminMetadata := some { status := RegStatus.pending, description := "site" } }

/-- A registry table holding only /foo. -/
def stFoo : RegState := [nsFoo]

/-- A commit for the already registered /foo submitting the different key k2. -/
def commitFooK2 : RegistrationData :=
  { clientNonce := "aa", clientPayload := "aabb", clientSignature := "cs",
    serverNonce := "bb", serverPayload := "aabb", serverSignature := "ss",
    pubkey := "k2", reqPath := "/foo" }

/-- Commit environment in which both signatures verify. -/
def cenvVerified : CommitEnv := { clientVerified := true, serverVerified := true }

/-- Registry toggles: no approvals required, key chaining on. -/
def cfgPlain : RegConfig :=
  { requireCacheApproval := false, requireOriginApproval := false, requireKeyChaining := true }

/-- Registry toggles of claim C6: origin approval required, cache approval not. -/
def cfgOriginOnly : RegConfig :=
  { requireCacheApproval := false, requireOriginApproval := true, requireKeyChaining := true }

/-- Registry toggles with both approval requirements on. -/
def cfgBothRequire : RegConfig :=
  { requireCacheApproval := true, requireOriginApproval := true, requireKeyChaining := true }

/-- A well-signed, unexpired deletion token that lacks the deletion scope. -/
def tokNoScope : DelToken := { sigKey := "k1", valid := true, scopes := ["storage.read:/"] }

/-- An empty registration body: neither init nor commit. -/
def dataEmpty : RegistrationData := {}

/-- A director catalog holding one origin with one namespace ad. -/
def catalogOneOrigin : List (ServerAd × List NamespaceAd) :=
  [(⟨"origin1", ServerAdType.origin⟩, [⟨"/foo"⟩])]

/-- The initial configuration state. -/
def stConfig : ConfigState := {}

/-! ## Theorems -/

/-- Existence in the registry table agrees with lookup success. -/
theorem namespaceExists_eq_isSome (st : RegState) (p : String) :
    namespaceExists st p = (getNamespace st p).isSome := by
  induction st with
  | nil => rfl
  | cons ns tl ih =>
    cases h : ns.path == p with
    | true => simp [namespaceExists, getNamespace, List.any_cons, List.find?_cons, h]
    | false =>
      simp only [namespaceExists, getNamespace, List.any_cons, List.find?_cons, h,
        Bool.false_or]
      simpa [namespaceExists, getNamespace] using ih

/--
Claim C2 (code bug): on a challenge-init request carrying only the client
nonce "aa", with fresh server nonce "bb", `keySignChallengeInit` answers
with server nonce "bb" but signs and returns the payload built from the
request field `data.ServerNonce` (empty on an init), so the returned
`server_payload` is hex("aa"), not the hex("aabb") that the claim and the
spec require.
-/
theorem c2_init_signs_request_nonce :
    keySignChallengeInit initEnvFresh initRequest =
      Except.ok { status := 200, serverNonce := "bb", clientNonce := "aa",
                  serverPayload := hexEncode "aa",
                  serverSignature := hexEncode (signPayload "aa") }
    ∧ hexEncode "aa" ≠ hexEncode ("aa" ++ "bb") := by
  constructor
  · rfl
  · decide

/--
Claim C3 (counterexample): the table registers /foo with key k1; a verified
commit for /foo submitting the different key k2 is answered 200 — a 2xx
status — refuting the claim that a differing key draws a non-2xx reply.
The table is left unchanged.
-/
theorem c3_counterexample :
    getNamespace stFoo commitFooK2.reqPath = some nsFoo
    ∧ nsFoo.pubkey ≠ commitFooK2.pubkey
    ∧ keySignChallengeCommit cfgPlain cenvVerified stFoo commitFooK2 "register" = (200, stFoo) := by
  refine ⟨rfl, by decide, rfl⟩

/--
Claim C3 (amended): a verified challenge commit whose requested path is
already registered is answered 200 idempotently whether or not the
submitted key matches the stored one, and the table is left unchanged.
-/
theorem c3_existing_is_idempotent_200 (cfg : RegConfig) (env : CommitEnv) (st : RegState)
    (data : RegistrationData)
    (hjw : env.jwksOk = true) (hdec : env.decodeOk = true) (hkey : env.keyLoadOk = true)
    (hcv : env.clientVerified = true) (hsv : env.serverVerified = true)
    (hex : namespaceExists st data.reqPath = true) :
    keySignChallengeCommit cfg env st data "register" = (200, st) := by
  simp [keySignChallengeCommit, hjw, hdec, hkey, hcv, hsv, hex]

/-- Claim C3 (witness): the amended statement at the concrete commit for /foo. -/
theorem c3_witness :
    namespaceExists stFoo commitFooK2.reqPath = true
    ∧ keySignChallengeCommit cfgPlain cenvVerified stFoo commitFooK2 "register" = (200, stFoo) :=
  ⟨rfl, c3_existing_is_idempotent_200 cfgPlain cenvVerified stFoo commitFooK2
      rfl rfl rfl rfl rfl rfl⟩

/--
Claim C6 (code bug): /foo is an origin path (it does not start with
/caches) registered with non-empty admin metadata in Pending status, and
`Registry.RequireOriginApproval` is on while
`Registry.RequireCacheApproval` is off; the claim requires
`approved = (status == Approved) = false`, but `checkNamespaceStatusHandler`
answers `approved = true` because its second branch consults the cache
toggle for origin paths.
-/
theorem c6_origin_honors_cache_toggle :
    checkNamespaceStatusHandler cfgOriginOnly stFoo "/foo" = (200, some true)
    ∧ strStartsWith "/foo" "/caches" = false
    ∧ cfgOriginOnly.requireOriginApproval = true
    ∧ getNamespace stFoo "/foo" = some nsFoo
    ∧ nsFoo.adminMetadata.getD {} ≠ ({} : AdminMetadata)
    ∧ (nsFoo.adminMetadata.getD {}).status ≠ RegStatus.approved
    ∧ checkNamespaceStatusHandler cfgBothRequire stFoo "/foo" = (200, some false) := by
  refine ⟨rfl, by decide, rfl, rfl, by decide, by decide, rfl⟩

/--
Claim C8 (counterexample): a registration body with every challenge field
empty is neither an init nor a commit; `keySignChallenge` answers it with
`http.StatusMultipleChoices` (300), not with the 400 the claim states.
-/
theorem c8_counterexample :
    keySignChallenge cfgPlain cenvVerified initEnvFresh stFoo dataEmpty "register" = (300, stFoo)
    ∧ (300 : Nat) ≠ 400 := by
  refine ⟨rfl, by decide⟩

/--
Claim C8 (amended): every registration body whose client nonce is empty —
equivalently, one that is neither a challenge init nor a complete challenge
commit, since a commit needs all six fields non-empty — is answered with
status 300 (MISSING PARAMETERS), leaving the table unchanged.
-/
theorem c8_missing_params_get_300 (cfg : RegConfig) (cenv : CommitEnv) (ienv : InitEnv)
    (st : RegState) (data : RegistrationData) (action : String)
    (h : data.clientNonce = "") :
    keySignChallenge cfg cenv ienv st data action = (300, st) := by
  simp [keySignChallenge, h]

/-- Claim C8 (witness): the amended statement at the empty registration body. -/
theorem c8_witness :
    dataEmpty.clientNonce = ""
    ∧ keySignChallenge cfgPlain cenvVerified initEnvFresh stFoo dataEmpty "register" = (300, stFoo) :=
  ⟨rfl, c8_missing_params_get_300 cfgPlain cenvVerified initEnvFresh stFoo dataEmpty "register" rfl⟩

/--
Claim C9 (code bug): on a catalog with one origin entry, `ListNamespaces`
evaluates `make([]NamespaceAd, 1, 0)`, whose length exceeds its capacity,
so the Go runtime panics instead of returning the origin's namespace ads.
-/
theorem c9_list_namespaces_panics :
    ListNamespaces catalogOneOrigin = Except.error "makeslice: len out of range"
    ∧ ListNamespaces [] = Except.ok [] := by
  refine ⟨rfl, rfl⟩

/--
Claim C10: whenever the server-type bitmask enables both `OriginType` and
`CacheType`, `InitServer` returns an error, and the resulting configuration
state has neither recorded the enabled server types nor applied the server
configuration defaults.
-/
theorem c10_both_types_error_before_recording (dirOk restOk : Bool) (st : ConfigState)
    (currentServers : Nat)
    (ho : isEnabled currentServers OriginType = true)
    (hc : isEnabled currentServers CacheType = true) :
    (∃ e, (InitServer dirOk restOk st currentServers).1 = Except.error e)
    ∧ (InitServer dirOk restOk st currentServers).2.enabledSet = st.enabledSet
    ∧ (InitServer dirOk restOk st currentServers).2.enabledServers = st.enabledServers
    ∧ (InitServer dirOk restOk st currentServers).2.serverDefaultsApplied
        = st.serverDefaultsApplied := by
  cases dirOk with
  | false =>
    exact ⟨⟨"Failed to initialize the server configuration: Failed to get the config base directory",
      rfl⟩, rfl, rfl, rfl⟩
  | true =>
    simp [InitServer, initConfigDir, ho, hc]

/-- Claim C10 (witness): the statement at bitmask 3 (cache and origin both set). -/
theorem c10_witness :
    isEnabled 3 OriginType = true ∧ isEnabled 3 CacheType = true
    ∧ ((∃ e, (InitServer true true stConfig 3).1 = Except.error e)
        ∧ (InitServer true true stConfig 3).2.enabledSet = stConfig.enabledSet
        ∧ (InitServer true true stConfig 3).2.enabledServers = stConfig.enabledServers
        ∧ (InitServer true true stConfig 3).2.serverDefaultsApplied
            = stConfig.serverDefaultsApplied) :=
  ⟨rfl, rfl, c10_both_types_error_before_recording true true stConfig 3 rfl rfl⟩

/--
Claim C4 (counterexample): /foo is registered, yet a DELETE request without
a bearer token is answered 500, not the 401 the claim states, and indeed no
4xx status; the namespace is not deleted.
-/
theorem c4_counterexample :
    namespaceExists stFoo "/foo" = true
    ∧ deleteNamespaceHandler stFoo "/foo" none = (500, stFoo)
    ∧ ¬(400 ≤ (deleteNamespaceHandler stFoo "/foo" none).1
        ∧ (deleteNamespaceHandler stFoo "/foo" none).1 < 500) := by
  refine ⟨rfl, rfl, by decide⟩

/--
Claim C4 (amended): every DELETE request on a registered path that fails
authorization — no bearer token, a token whose signing key is not the
stored one, an expired token, or a token without the
`pelican.namespace_delete` scope — is answered 500 (not 4xx), and the
namespace table is left unchanged.
-/
theorem c4_auth_failure_500 (st : RegState) (p : String) (bearer : Option DelToken)
    (hne : p ≠ "") (hex : namespaceExists st p = true)
    (hfail : delAuthFails st p bearer = true) :
    deleteNamespaceHandler st p bearer = (500, st) := by
  simp only [deleteNamespaceHandler, if_neg hne, hex]
  simp only [Bool.true_eq_false, if_false]
  cases hj : getNamespaceJwks st p with
  | none => simp
  | some pr =>
    obtain ⟨jwks, md⟩ := pr
    cases bearer with
    | none => simp
    | some tok =>
      simp only [delAuthFails, hj] at hfail
      dsimp only
      split
      next => rfl
      next h1 =>
        split
        next => rfl
        next h2 =>
          split
          next => rfl
          next h3 =>
            exfalso
            have e1 : tok.sigKey = jwks := not_not.mp h1
            have e2 : tok.valid = true := by
              cases hv : tok.valid
              · exact absurd hv h2
              · rfl
            have e3 : tok.scopes.contains "pelican.namespace_delete" = true := by
              cases hcc : tok.scopes.contains "pelican.namespace_delete"
              · exact absurd (by rw [hcc]; rfl) h3
              · rfl
            rw [e1, e2, e3] at hfail
            simp at hfail

/-- Claim C4 (witness): the amended statement at a token lacking the deletion scope. -/
theorem c4_witness :
    ("/foo" : String) ≠ ""
    ∧ namespaceExists stFoo "/foo" = true
    ∧ delAuthFails stFoo "/foo" (some tokNoScope) = true
    ∧ deleteNamespaceHandler stFoo "/foo" (some tokNoScope) = (500, stFoo) :=
  ⟨by decide, rfl, rfl,
    c4_auth_failure_500 stFoo "/foo" (some tokNoScope) (by decide) rfl rfl⟩

/--
Claim C5: for every configuration, registry table and path, the issuer.jwks
branch of `wildcardHandler` answers exactly as the claim states: 404 for an
unregistered path, 403 for a registered path whose recorded status is not
Approved while the matching approval requirement (cache toggle for paths
under /caches/, origin toggle otherwise) is enabled, and 200 with the
stored JWKS otherwise.
-/
theorem c5_wildcard_jwks_matches_spec (cfg : RegConfig) (st : RegState) (p : String) :
    wildcardHandlerJwks cfg st p = wildcardJwksSpec cfg st p := by
  cases hg : getNamespace st p with
  | none =>
    have hex : namespaceExists st p = false := by
      rw [namespaceExists_eq_isSome, hg]; rfl
    simp [wildcardHandlerJwks, wildcardJwksSpec, getNamespaceJwks, hg, hex]
  | some ns =>
    have hex : namespaceExists st p = true := by
      rw [namespaceExists_eq_isSome, hg]; rfl
    simp only [wildcardHandlerJwks, wildcardJwksSpec, getNamespaceJwks, hg, hex,
      Option.map_some', Bool.true_eq_false, if_false]
    cases hmd : ns.adminMetadata with
    | none => simp
    | some md =>
      by_cases hst : md.status = RegStatus.approved
      · simp [hst]
      · cases hc : strStartsWith p "/caches/" with
        | true => cases hca : cfg.requireCacheApproval <;> simp [hst, hc, hca]
        | false => cases hoa : cfg.requireOriginApproval <;> simp [hst, hc, hoa]

/-- The upload step never issues a DELETE request. -/
theorem uploadTestfile_no_delete (env : TftEnv) (testType testBody : String) :
    deleteAttempted (uploadTestfile env testType testBody).2 = false := by
  by_cases h1 : env.tokenOk = false
  · simp [uploadTestfile, h1, deleteAttempted]
  · by_cases h2 : env.baseUrlOk = false
    · simp [uploadTestfile, h1, h2, deleteAttempted]
    · by_cases h3 : env.putResp.statusCode > 299 <;>
        simp [uploadTestfile, h1, h2, h3, deleteAttempted]

/-- The download step never issues a DELETE request. -/
theorem downloadTestfile_no_delete (env : TftEnv) (testBody downloadUrl : String) :
    deleteAttempted (downloadTestfile env testBody downloadUrl).2 = false := by
  by_cases h1 : env.tokenOk = false
  · simp [downloadTestfile, h1, deleteAttempted]
  · by_cases h2 : env.getResp.body = testBody
    · by_cases h3 : env.getResp.statusCode > 299 <;>
        simp [downloadTestfile, h1, h2, h3, deleteAttempted]
    · simp [downloadTestfile, h1, h2, deleteAttempted]

/-- When the token is minted, the delete step issues its DELETE request. -/
theorem deleteTestfile_attempts (env : TftEnv) (fileUrl : String)
    (h : env.tokenOk = true) :
    deleteAttempted (deleteTestfile env fileUrl).2 = true := by
  by_cases h3 : env.delResp.statusCode > 299 <;>
    simp [deleteTestfile, h, h3, deleteAttempted]

/-- A successful upload implies the token was minted. -/
theorem uploadTestfile_ok_tokenOk (env : TftEnv) (testType testBody downloadUrl : String)
    (h : (uploadTestfile env testType testBody).1 = Except.ok downloadUrl) :
    env.tokenOk = true := by
  cases htok : env.tokenOk
  · simp [uploadTestfile, htok] at h
  · rfl

/-- Splitting the delete-attempted test over trace concatenation. -/
theorem deleteAttempted_append (a b : List HttpRequest) :
    deleteAttempted (a ++ b) = (deleteAttempted a || deleteAttempted b) := by
  simp [deleteAttempted, List.any_append]

/--
Claim C1 (counterexample): a run whose upload succeeds (status 201) and
whose download returns a corrupted body never issues the DELETE request, so
the delete step is not attempted even though the upload step succeeded —
refuting the claim that delete is attempted whenever upload succeeds.
-/
theorem c1_counterexample :
    (uploadTestfile envMismatch "self-test" selfTestBody).1 =
      Except.ok "/pelican/monitoring/self-test-2024-01-01T00:00:00Z.txt"
    ∧ deleteAttempted (RunTests envMismatch "self-test").2 = false := by
  refine ⟨rfl, rfl⟩

/--
Claim C1 (amended): in every run of `RunTests`, the delete step is
attempted if and only if the upload step succeeded AND the download step
succeeded; an upload success followed by a download failure returns without
attempting the delete.
-/
theorem c1_delete_iff_upload_and_download (env : TftEnv) (testType : String) :
    deleteAttempted (RunTests env testType).2 = true ↔
      ∃ testBody downloadUrl,
        bodyForTestType testType = some testBody
        ∧ (uploadTestfile env testType testBody).1 = Except.ok downloadUrl
        ∧ (downloadTestfile env testBody downloadUrl).1 = Except.ok () := by
  cases hb : bodyForTestType testType with
  | none => simp [RunTests, hb, deleteAttempted]
  | some testBody =>
    rcases hu : uploadTestfile env testType testBody with ⟨ru, tr1⟩
    have htr1 : deleteAttempted tr1 = false := by
      have h := uploadTestfile_no_delete env testType testBody
      rw [hu] at h; exact h
    cases ru with
    | error e =>
      apply iff_of_false
      · simp [RunTests, hb, hu, htr1]
      · rintro ⟨tb, durl, htb, hup, -⟩
        cases htb
        rw [hu] at hup
        exact Except.noConfusion hup
    | ok downloadUrl =>
      rcases hd : downloadTestfile env testBody downloadUrl with ⟨rd, tr2⟩
      have htr2 : deleteAttempted tr2 = false := by
        have h := downloadTestfile_no_delete env testBody downloadUrl
        rw [hd] at h; exact h
      cases rd with
      | error e =>
        apply iff_of_false
        · simp [RunTests, hb, hu, hd, deleteAttempted_append, htr1, htr2]
        · rintro ⟨tb, durl, htb, hup, hdn⟩
          cases htb
          rw [hu] at hup
          cases hup
          rw [hd] at hdn
          exact Except.noConfusion hdn
      | ok u =>
        have htok : env.tokenOk = true := by
          apply uploadTestfile_ok_tokenOk env testType testBody downloadUrl
          rw [hu]
        rcases hdel : deleteTestfile env downloadUrl with ⟨rdel, tr3⟩
        have htr3 : deleteAttempted tr3 = true := by
          have h := deleteTestfile_attempts env downloadUrl htok
          rw [hdel] at h; exact h
        apply iff_of_true
        · cases rdel <;>
            simp [RunTests, hb, hu, hd, hdel, deleteAttempted_append, htr3]
        · exact ⟨testBody, downloadUrl, rfl, by rw [hu], by rw [hd]⟩

/--
Claim C7: with the token minted and the base URL parseable, a self-test
`RunTests` returns `(true, nil)` exactly when the PUT of the constant
self-test body to `/pelican/monitoring/self-test-<RFC3339>.txt`, the GET
returning a byte-exact matching body, and the DELETE all answer with a
status below 300; the PUT request with the constant body is always issued,
and any failing run returns `false` together with an error.
-/
theorem c7_run_tests_characterization (env : TftEnv)
    (htok : env.tokenOk = true) (hurl : env.baseUrlOk = true) :
    ((RunTests env "self-test").1 = (true, none) ↔
      (env.putResp.statusCode < 300 ∧ env.getResp.body = selfTestBody
        ∧ env.getResp.statusCode < 300 ∧ env.delResp.statusCode < 300))
    ∧ (⟨HttpMethod.put, "/pelican/monitoring/self-test-" ++ env.now ++ ".txt",
          selfTestBody⟩ : HttpRequest) ∈ (RunTests env "self-test").2
    ∧ ((RunTests env "self-test").1 = (true, none)
        ∨ ((RunTests env "self-test").1.1 = false
            ∧ (RunTests env "self-test").1.2.isSome = true)) := by
  have hb : bodyForTestType "self-test" = some selfTestBody := rfl
  by_cases hput : env.putResp.statusCode > 299
  · have hup : uploadTestfile env "self-test" selfTestBody =
        (Except.error "Error response from test file upload",
          [⟨HttpMethod.put, "/pelican/monitoring/self-test-" ++ env.now ++ ".txt",
            selfTestBody⟩]) := by
      simp [uploadTestfile, htok, hurl, hput]
    have hrun : RunTests env "self-test" =
        ((false, some ("Test file transfer failed during upload: "
            ++ "Error response from test file upload")),
          [⟨HttpMethod.put, "/pelican/monitoring/self-test-" ++ env.now ++ ".txt",
            selfTestBody⟩]) := by
      simp [RunTests, hb, hup]
    refine ⟨?_, ?_, ?_⟩
    · rw [hrun]
      exact iff_of_false (by simp) (by rintro ⟨h1, -⟩; omega)
    · rw [hrun]
      simp
    · rw [hrun]
      right
      simp
  · have hup : uploadTestfile env "self-test" selfTestBody =
        (Except.ok ("/pelican/monitoring/self-test-" ++ env.now ++ ".txt"),
          [⟨HttpMethod.put, "/pelican/monitoring/self-test-" ++ env.now ++ ".txt",
            selfTestBody⟩]) := by
      simp [uploadTestfile, htok, hurl, hput]
    by_cases hbody : env.getResp.body = selfTestBody
    · by_cases hget : env.getResp.statusCode > 299
      · have hdown : downloadTestfile env selfTestBody
            ("/pelican/monitoring/self-test-" ++ env.now ++ ".txt") =
            (Except.error "Error response from test file transfer download",
              [⟨HttpMethod.get, "/pelican/monitoring/self-test-" ++ env.now ++ ".txt",
                ""⟩]) := by
          simp [downloadTestfile, htok, hbody, hget]
        have hrun : RunTests env "self-test" =
            ((false, some ("Test file transfer failed during download: "
                ++ "Error response from test file transfer download")),
              [⟨HttpMethod.put, "/pelican/monitoring/self-test-" ++ env.now ++ ".txt",
                selfTestBody⟩]
              ++ [⟨HttpMethod.get, "/pelican/monitoring/self-test-" ++ env.now ++ ".txt",
                ""⟩]) := by
          simp [RunTests, hb, hup, hdown]
        refine ⟨?_, ?_, ?_⟩
        · rw [hrun]
          exact iff_of_false (by simp) (by rintro ⟨-, -, h3, -⟩; omega)
        · rw [hrun]
          simp
        · rw [hrun]
          right
          simp
      · have hdown : downloadTestfile env selfTestBody
            ("/pelican/monitoring/self-test-" ++ env.now ++ ".txt") =
            (Except.ok (),
              [⟨HttpMethod.get, "/pelican/monitoring/self-test-" ++ env.now ++ ".txt",
                ""⟩]) := by
          simp [downloadTestfile, htok, hbody, hget]
        by_cases hdel : env.delResp.statusCode > 299
        · have hdelete : deleteTestfile env
              ("/pelican/monitoring/self-test-" ++ env.now ++ ".txt") =
              (Except.error "Error response from test file transfer deletion",
                [⟨HttpMethod.delete,
                  "/pelican/monitoring/self-test-" ++ env.now ++ ".txt", ""⟩]) := by
            simp [deleteTestfile, htok, hdel]
          have hrun : RunTests env "self-test" =
              ((false, some ("Test file transfer failed during delete: "
                  ++ "Error response from test file transfer deletion")),
                ([⟨HttpMethod.put,
                    "/pelican/monitoring/self-test-" ++ env.now ++ ".txt",
                    selfTestBody⟩]
                  ++ [⟨HttpMethod.get,
                    "/pelican/monitoring/self-test-" ++ env.now ++ ".txt", ""⟩])
                  ++ [⟨HttpMethod.delete,
                    "/pelican/monitoring/self-test-" ++ env.now ++ ".txt", ""⟩]) := by
            simp [RunTests, hb, hup, hdown, hdelete]
          refine ⟨?_, ?_, ?_⟩
          · rw [hrun]
            exact iff_of_false (by simp) (by rintro ⟨-, -, -, h4⟩; omega)
          · rw [hrun]
            simp
          · rw [hrun]
            right
            simp
        · have hdelete : deleteTestfile env
              ("/pelican/monitoring/self-test-" ++ env.now ++ ".txt") =
              (Except.ok (),
                [⟨HttpMethod.delete,
                  "/pelican/monitoring/self-test-" ++ env.now ++ ".txt", ""⟩]) := by
            simp [deleteTestfile, htok, hdel]
          have hrun : RunTests env "self-test" =
              ((true, none),
                ([⟨HttpMethod.put,
                    "/pelican/monitoring/self-test-" ++ env.now ++ ".txt",
                    selfTestBody⟩]
                  ++ [⟨HttpMethod.get,
                    "/pelican/monitoring/self-test-" ++ env.now ++ ".txt", ""⟩])
                  ++ [⟨HttpMethod.delete,
                    "/pelican/monitoring/self-test-" ++ env.now ++ ".txt", ""⟩]) := by
            simp [RunTests, hb, hup, hdown, hdelete]
          refine ⟨?_, ?_, ?_⟩
          · rw [hrun]
            exact iff_of_true rfl ⟨by omega, hbody, by omega, by omega⟩
          · rw [hrun]
            simp
          · rw [hrun]
            left
            rfl
    · have hdown : downloadTestfile env selfTestBody
          ("/pelican/monitoring/self-test-" ++ env.now ++ ".txt") =
          (Except.error "Contents of test file transfer body do not match upload",
            [⟨HttpMethod.get, "/pelican/monitoring/self-test-" ++ env.now ++ ".txt",
              ""⟩]) := by
        simp [downloadTestfile, htok, hbody]
      have hrun : RunTests env "self-test" =
          ((false, some ("Test file transfer failed during download: "
              ++ "Contents of test file transfer body do not match upload")),
            [⟨HttpMethod.put, "/pelican/monitoring/self-test-" ++ env.now ++ ".txt",
              selfTestBody⟩]
            ++ [⟨HttpMethod.get, "/pelican/monitoring/self-test-" ++ env.now ++ ".txt",
              ""⟩]) := by
        simp [RunTests, hb, hup, hdown]
      refine ⟨?_, ?_, ?_⟩
      · rw [hrun]
        exact iff_of_false (by simp) (by rintro ⟨-, h2, -⟩; exact hbody h2)
      · rw [hrun]
        simp
      · rw [hrun]
        right
        simp

/-- Claim C7 (witness): the characterization at a fully successful run. -/
theorem c7_witness :
    envHappy.tokenOk = true ∧ envHappy.baseUrlOk = true
    ∧ (((RunTests envHappy "self-test").1 = (true, none) ↔
          (envHappy.putResp.statusCode < 300 ∧ envHappy.getResp.body = selfTestBody
            ∧ envHappy.getResp.statusCode < 300 ∧ envHappy.delResp.statusCode < 300))
        ∧ (⟨HttpMethod.put,
            "/pelican/monitoring/self-test-" ++ envHappy.now ++ ".txt",
            selfTestBody⟩ : HttpRequest) ∈ (RunTests envHappy "self-test").2
        ∧ ((RunTests envHappy "self-test").1 = (true, none)
            ∨ ((RunTests envHappy "self-test").1.1 = false
                ∧ (RunTests envHappy "self-test").1.2.isSome = true))) :=
  ⟨rfl, rfl, c7_run_tests_characterization envHappy rfl rfl⟩

/-- Claim C1 (witness): the amended equivalence at a fully successful run. -/
theorem c1_witness :
    deleteAttempted (RunTests envHappy "self-test").2 = true ↔
      ∃ testBody downloadUrl,
        bodyForTestType "self-test" = some testBody
        ∧ (uploadTestfile envHappy "self-test" testBody).1 = Except.ok downloadUrl
        ∧ (downloadTestfile envHappy testBody downloadUrl).1 = Except.ok () :=
  c1_delete_iff_upload_and_download envHappy "self-test"

/-- Claim C5 (witness): the handler agrees with the claimed behaviour at /foo. -/
theorem c5_witness :
    wildcardHandlerJwks cfgOriginOnly stFoo "/foo" = wildcardJwksSpec cfgOriginOnly stFoo "/foo" :=
  c5_wildcard_jwks_matches_spec cfgOriginOnly stFoo "/foo"
